import Mathlib

/-!
Verification of the swarm workflow-enforcement engine.

The Python sources under `swarm/` are shallowly embedded as pure Lean
functions: file IO, advisory locks and timestamps become explicit
parameters, fallible code returns `Except String`, and byte strings are
`List Nat` (each element < 256).  Definitions follow the source files
(`validate_state.py`, `transition_state.py`, `policy_guard.py`,
`capture_test_output.py`, `run_and_capture.py`, `orchestrate.py`,
`state_diff_guard.py`, `set_execution_lane.py`); comments name the
source lines each definition embeds.
-/

instance {α β : Type} [DecidableEq α] [DecidableEq β] : DecidableEq (Except α β) := fun a b =>
  match a, b with
  | .ok a, .ok b => if h : a = b then .isTrue (by rw [h]) else .isFalse (by intro hh; cases hh; exact h rfl)
  | .error a, .error b => if h : a = b then .isTrue (by rw [h]) else .isFalse (by intro hh; cases hh; exact h rfl)
  | .ok _, .error _ => .isFalse (by intro hh; cases hh)
  | .error _, .ok _ => .isFalse (by intro hh; cases hh)

/-! ### Python string primitives (ASCII fragment used by the sources) -/

def isPySpace (c : Char) : Bool :=
  c = ' ' || c = '\t' || c = '\n' || c = '\r' || c = '\x0b' || c = '\x0c'

/-- Python `str.strip()` (whitespace on both ends). -/
def pyStrip (s : String) : String :=
  ⟨((s.data.dropWhile isPySpace).reverse.dropWhile isPySpace).reverse⟩

def asciiUpperChar (c : Char) : Char :=
  if 'a' ≤ c ∧ c ≤ 'z' then Char.ofNat (c.toNat - 32) else c

def asciiLowerChar (c : Char) : Char :=
  if 'A' ≤ c ∧ c ≤ 'Z' then Char.ofNat (c.toNat + 32) else c

/-- Python `str.upper()` on the ASCII inputs the tools handle. -/
def pyUpper (s : String) : String := ⟨s.data.map asciiUpperChar⟩

/-- Python `str.lower()` on the ASCII inputs the tools handle. -/
def pyLower (s : String) : String := ⟨s.data.map asciiLowerChar⟩

/-- Python `s.startswith t`. -/
def pyStartsWith (s t : String) : Bool := t.data.isPrefixOf s.data

/-- Python `s.endswith t`. -/
def pyEndsWith (s t : String) : Bool := t.data.reverse.isPrefixOf s.data.reverse

def charTails : List Char → List (List Char)
  | [] => [[]]
  | l@(_ :: xs) => l :: charTails xs

/-- Python `t in s` (substring containment). -/
def containsSub (needle hay : String) : Bool :=
  (charTails hay.data).any needle.data.isPrefixOf

/-- Python `s.split(sep)` for a one-character separator. -/
def splitOnChar (sep : Char) (l : List Char) : List (List Char) :=
  match l with
  | [] => [[]]
  | c :: rest =>
    let r := splitOnChar sep rest
    if c = sep then [] :: r
    else match r with
      | [] => [[c]]
      | h :: t => (c :: h) :: t

def pySplit (sep : Char) (s : String) : List String :=
  (splitOnChar sep s.data).map fun l => ⟨l⟩

/-- Python `str.splitlines()` on texts whose only line break is `\n`:
split on `\n` and drop a final empty piece. -/
def pySplitlines (s : String) : List String :=
  let parts := pySplit '\n' s
  match parts.reverse with
  | "" :: rest => rest.reverse
  | _ => parts

/-- Python `sep.join(parts)`. -/
def joinWith (sep : String) : List String → String
  | [] => ""
  | s :: rest => rest.foldl (fun acc x => acc ++ sep ++ x) s

/-- Python `s.rstrip("\n")`. -/
def pyRstripNl (s : String) : String :=
  ⟨(s.data.reverse.dropWhile fun c => c = '\n').reverse⟩

def strTake (s : String) (n : Nat) : String := ⟨s.data.take n⟩

/-- Code-point lexicographic comparison, as Python `<` on str. -/
def charListLt : List Char → List Char → Bool
  | [], [] => false
  | [], _ :: _ => true
  | _ :: _, [] => false
  | a :: as', b :: bs' =>
    if a.toNat < b.toNat then true
    else if b.toNat < a.toNat then false
    else charListLt as' bs'

def strLt (a b : String) : Bool := charListLt a.data b.data

def insertSorted (x : String) : List String → List String
  | [] => [x]
  | y :: ys => if strLt x y then x :: y :: ys else y :: insertSorted x ys

/-- Python `sorted` on a list of strings. -/
def sortStrs (l : List String) : List String := l.foldr insertSorted []

/-- First-occurrence deduplication (used to model Python `set(...)` before `sorted`). -/
def dedupStrs : List String → List String
  | [] => []
  | x :: xs => if x ∈ xs then dedupStrs xs else x :: dedupStrs xs

/-- Python `repr` of a str (ASCII, no embedded quotes): single quotes around the text. -/
def pyReprStr (s : String) : String := "'" ++ s ++ "'"

/-- Python `str(...)` of a list of str: `['a', 'b']`. -/
def pyReprStrList (l : List String) : String :=
  "[" ++ joinWith ", " (l.map pyReprStr) ++ "]"

/-- Python `list.index` (first index; callers guarantee membership). -/
def listIndex (l : List String) (x : String) : Nat :=
  match l with
  | [] => 0
  | y :: ys => if y = x then 0 else listIndex ys x + 1

/-! ### UTF-8 (the sources' `.encode("utf-8")` / `.decode("utf-8", errors="replace")`) -/

def utf8EncodeChar (c : Char) : List Nat :=
  let n := c.toNat
  if n < 0x80 then [n]
  else if n < 0x800 then [0xC0 ||| (n >>> 6), 0x80 ||| (n &&& 0x3F)]
  else if n < 0x10000 then
    [0xE0 ||| (n >>> 12), 0x80 ||| ((n >>> 6) &&& 0x3F), 0x80 ||| (n &&& 0x3F)]
  else
    [0xF0 ||| (n >>> 18), 0x80 ||| ((n >>> 12) &&& 0x3F),
     0x80 ||| ((n >>> 6) &&& 0x3F), 0x80 ||| (n &&& 0x3F)]

def utf8Encode (s : String) : List Nat := s.data.flatMap utf8EncodeChar

def isCont (b : Nat) : Bool := 0x80 ≤ b ∧ b < 0xC0

def charOfCode (n : Nat) : Char := Char.ofNat n

/-- `bytes.decode("utf-8", errors="replace")`: decode with U+FFFD for invalid input. -/
def utf8DecodeFuel : Nat → List Nat → List Char
  | 0, _ => []
  | _, [] => []
  | fuel + 1, b :: rest =>
    if b < 0x80 then charOfCode b :: utf8DecodeFuel fuel rest
    else if 0xC2 ≤ b ∧ b < 0xE0 then
      match rest with
      | b2 :: rest2 =>
        if isCont b2 then charOfCode (((b - 0xC0) <<< 6) ||| (b2 - 0x80)) :: utf8DecodeFuel fuel rest2
        else '�' :: utf8DecodeFuel fuel rest
      | [] => ['�']
    else if 0xE0 ≤ b ∧ b < 0xF0 then
      match rest with
      | b2 :: b3 :: rest3 =>
        if isCont b2 ∧ isCont b3 then
          charOfCode (((b - 0xE0) <<< 12) ||| ((b2 - 0x80) <<< 6) ||| (b3 - 0x80)) :: utf8DecodeFuel fuel rest3
        else '�' :: utf8DecodeFuel fuel rest
      | _ => '�' :: utf8DecodeFuel fuel rest.tail
    else if 0xF0 ≤ b ∧ b < 0xF5 then
      match rest with
      | b2 :: b3 :: b4 :: rest4 =>
        if isCont b2 ∧ isCont b3 ∧ isCont b4 then
          charOfCode (((b - 0xF0) <<< 18) ||| ((b2 - 0x80) <<< 12) ||| ((b3 - 0x80) <<< 6) ||| (b4 - 0x80)) ::
            utf8DecodeFuel fuel rest4
        else '�' :: utf8DecodeFuel fuel rest
      | _ => '�' :: utf8DecodeFuel fuel rest.tail
    else '�' :: utf8DecodeFuel fuel rest

def utf8DecodeReplace (bs : List Nat) : String := ⟨utf8DecodeFuel bs.length bs⟩

/-! ### SHA-256 and HMAC-SHA256 (`hashlib.sha256`, `hmac.new(..., digestmod="sha256")`) -/

/-- The 64 SHA-256 round constants (the fractional parts of the cube
roots of the first 64 primes), written in decimal. -/
def sha256K : List Nat :=
  [1116352408, 1899447441, 3049323471, 3921009573, 961987163,
   1508970993, 2453635748, 2870763221, 3624381080, 310598401,
   607225278, 1426881987, 1925078388, 2162078206, 2614888103,
   3248222580, 3835390401, 4022224774, 264347078, 604807628,
   770255983, 1249150122, 1555081692, 1996064986, 2554220882,
   2821834349, 2952996808, 3210313671, 3336571891, 3584528711,
   113926993, 338241895, 666307205, 773529912, 1294757372,
   1396182291, 1695183700, 1986661051, 2177026350, 2456956037,
   2730485921, 2820302411, 3259730800, 3345764771, 3516065817,
   3600352804, 4094571909, 275423344, 430227734, 506948616,
   659060556, 883997877, 958139571, 1322822218, 1537002063,
   1747873779, 1955562222, 2024104815, 2227730452, 2361852424,
   2428436474, 2756734187, 3204031479, 3329325298]

/-- The eight SHA-256 initial hash values, written in decimal. -/
def sha256H0 : List Nat :=
  [1779033703, 3144134277, 1013904242, 2773480762,
   1359893119, 2600822924, 528734635, 1541459225]

def rotr32 (k a : Nat) : Nat := ((a >>> k) ||| (a <<< (32 - k))) % 4294967296
def xor3 (a b c : Nat) : Nat := (a ^^^ b) ^^^ c
def not32 (a : Nat) : Nat := a ^^^ 4294967295
def bigSigma0 (x : Nat) : Nat := xor3 (rotr32 2 x) (rotr32 13 x) (rotr32 22 x)
def bigSigma1 (x : Nat) : Nat := xor3 (rotr32 6 x) (rotr32 11 x) (rotr32 25 x)
def smallSigma0 (x : Nat) : Nat := xor3 (rotr32 7 x) (rotr32 18 x) (x >>> 3)
def smallSigma1 (x : Nat) : Nat := xor3 (rotr32 17 x) (rotr32 19 x) (x >>> 10)
def chF (x y z : Nat) : Nat := (x &&& y) ^^^ (not32 x &&& z)
def majF (x y z : Nat) : Nat := xor3 (x &&& y) (x &&& z) (y &&& z)

def bytesToWords : List Nat → List Nat
  | a :: b :: c :: d :: rest => (((a * 256 + b) * 256 + c) * 256 + d) :: bytesToWords rest
  | _ => []

/-- The message schedule held latest-word-first; extend by `n` words. -/
def extendSchedule : Nat → List Nat → List Nat
  | 0, rev => rev
  | n + 1, rev =>
    let wt := (smallSigma1 (rev.getD 1 0) + rev.getD 6 0 + smallSigma0 (rev.getD 14 0) + rev.getD 15 0) % 4294967296
    extendSchedule n (wt :: rev)

def sha256Schedule (block : List Nat) : List Nat :=
  (extendSchedule 48 (bytesToWords block).reverse).reverse

def sha256Round : List Nat → Nat × Nat → List Nat
  | [a, b, c, d, e, f, g, h], (k, w) =>
    let t1 := (h + bigSigma1 e + chF e f g + k + w) % 4294967296
    let t2 := (bigSigma0 a + majF a b c) % 4294967296
    [(t1 + t2) % 4294967296, a, b, c, (d + t1) % 4294967296, e, f, g]
  | s, _ => s

def sha256Compress (h : List Nat) (block : List Nat) : List Nat :=
  let ws := sha256Schedule block
  let v := (sha256K.zip ws).foldl sha256Round h
  (h.zip v).map fun (x, y) => (x + y) % 4294967296

def chunk64Fuel : Nat → List Nat → List (List Nat)
  | 0, _ => []
  | _, [] => []
  | fuel + 1, l => l.take 64 :: chunk64Fuel fuel (l.drop 64)

def chunk64 (l : List Nat) : List (List Nat) := chunk64Fuel l.length l

def sha256Pad (msg : List Nat) : List Nat :=
  let len := msg.length
  let zeros := (120 - (len + 1) % 64) % 64
  let bitLen := len * 8
  msg ++ [0x80] ++ List.replicate zeros 0 ++
    [(bitLen >>> 56) % 256, (bitLen >>> 48) % 256, (bitLen >>> 40) % 256, (bitLen >>> 32) % 256,
     (bitLen >>> 24) % 256, (bitLen >>> 16) % 256, (bitLen >>> 8) % 256, bitLen % 256]

def sha256Bytes (msg : List Nat) : List Nat :=
  let final := (chunk64 (sha256Pad msg)).foldl sha256Compress sha256H0
  final.flatMap fun w => [(w >>> 24) % 256, (w >>> 16) % 256, (w >>> 8) % 256, w % 256]

def hexDigit (n : Nat) : Char := if n < 10 then Char.ofNat (48 + n) else Char.ofNat (87 + n)
def byteHex (b : Nat) : List Char := [hexDigit (b / 16), hexDigit (b % 16)]
def bytesToHex (bs : List Nat) : String := ⟨bs.flatMap byteHex⟩

/-- `hashlib.sha256(data).hexdigest()`. -/
def sha256Hex (msg : List Nat) : String := bytesToHex (sha256Bytes msg)

def hmacSha256 (key msg : List Nat) : List Nat :=
  let key1 := if key.length > 64 then sha256Bytes key else key
  let key2 := key1 ++ List.replicate (64 - key1.length) 0
  let ipad := key2.map fun b => b ^^^ 0x36
  let opad := key2.map fun b => b ^^^ 0x5c
  sha256Bytes (opad ++ sha256Bytes (ipad ++ msg))

/-- `hmac.new(key, msg, digestmod="sha256").hexdigest()`. -/
def hmacSha256Hex (key msg : List Nat) : String := bytesToHex (hmacSha256 key msg)

/-! ### Phase and role registry (`validate_state.py` lines 15-145) -/

def CANONICAL_PHASES : List String :=
  ["INIT", "ARCHITECT", "QA_CONTRACT", "BACKEND", "ANALYST_CI_GATE",
   "FRONTEND", "QA_E2E", "ANALYST_FINAL", "COMPLETE"]

/-- `PHASE_ALIASES` (`validate_state.py` lines 28-40) as a lookup. -/
def phaseAlias (u : String) : Option String :=
  if u = "ARCHITECT_DESIGN" then some "ARCHITECT"
  else if u = "ARCHITECT_PORT_FIX" then some "ARCHITECT"
  else if u = "QA_CONTRACT_TESTS" then some "QA_CONTRACT"
  else if u = "BACKEND_IMPLEMENTATION" then some "BACKEND"
  else if u = "BACKEND_HARDENING_COMPLETE" then some "BACKEND"
  else if u = "ANALYST_AUDIT" then some "ANALYST_CI_GATE"
  else if u = "FRONTEND_IMPLEMENTATION" then some "FRONTEND"
  else if u = "QA_E2E_VALIDATION" then some "QA_E2E"
  else if u = "QA_VALIDATION_COMPLETE" then some "QA_E2E"
  else if u = "ANALYST_FINAL_SIGNOFF" then some "ANALYST_FINAL"
  else if u = "QA_VALIDATION" then some "QA_E2E"
  else none

/-- `PHASE_TO_ROLE` (`validate_state.py` lines 42-52). -/
def phaseToRole (p : String) : Option String :=
  if p = "INIT" then some "orchestrator"
  else if p = "ARCHITECT" then some "architect"
  else if p = "QA_CONTRACT" then some "qa"
  else if p = "BACKEND" then some "backend"
  else if p = "ANALYST_CI_GATE" then some "analyst"
  else if p = "FRONTEND" then some "frontend"
  else if p = "QA_E2E" then some "qa"
  else if p = "ANALYST_FINAL" then some "analyst"
  else if p = "COMPLETE" then some "orchestrator"
  else none

def DEFAULT_REQUIRED_PHASE_SEQUENCE : List String :=
  ["ARCHITECT", "QA_CONTRACT", "BACKEND", "ANALYST_CI_GATE", "FRONTEND", "QA_E2E", "ANALYST_FINAL"]

def EXECUTION_LANES : List String := ["FULL", "FAST_UI"]

/-- `LANE_REQUIRED_PHASE_SEQUENCE.get(lane, DEFAULT_REQUIRED_PHASE_SEQUENCE)`. -/
def laneRequiredPhaseSequence (lane : String) : List String :=
  if lane = "FULL" then DEFAULT_REQUIRED_PHASE_SEQUENCE
  else if lane = "FAST_UI" then ["ARCHITECT", "FRONTEND", "QA_E2E", "ANALYST_FINAL"]
  else DEFAULT_REQUIRED_PHASE_SEQUENCE

/-- `ROLE_ALIASES` (`validate_state.py` lines 76-87). -/
def roleAlias (r : String) : Option String :=
  if r = "arch" then some "architect"
  else if r = "architect" then some "architect"
  else if r = "qa" then some "qa"
  else if r = "backend" then some "backend"
  else if r = "dev" then some "backend"
  else if r = "developer" then some "backend"
  else if r = "frontend" then some "frontend"
  else if r = "analyst" then some "analyst"
  else if r = "orchestrator" then some "orchestrator"
  else if r = "ci" then some "orchestrator"
  else none

def roleAliasValues : List String :=
  ["architect", "architect", "qa", "backend", "backend", "backend",
   "frontend", "analyst", "orchestrator", "orchestrator"]

/-- `_canonicalize_phase` (`validate_state.py` lines 94-125). -/
def canonicalizePhase (raw : String) : Except String String :=
  let p := pyStrip raw
  if p = "" then .error "Empty phase value is not allowed."
  else
    let u := pyUpper p
    if u ∈ CANONICAL_PHASES then .ok u
    else match phaseAlias u with
      | some v => .ok v
      | none =>
        if pyStartsWith u "ARCHITECT" then .ok "ARCHITECT"
        else if pyStartsWith u "BACKEND" then .ok "BACKEND"
        else if pyStartsWith u "FRONTEND" then .ok "FRONTEND"
        else if pyStartsWith u "ANALYST_FINAL" || (pyStartsWith u "ANALYST" && containsSub "FINAL" u) then
          .ok "ANALYST_FINAL"
        else if pyStartsWith u "ANALYST" then .ok "ANALYST_CI_GATE"
        else if pyStartsWith u "QA" then
          if containsSub "CONTRACT" u then .ok "QA_CONTRACT"
          else if containsSub "E2E" u || containsSub "VALIDATION" u then .ok "QA_E2E"
          else .error ("Ambiguous QA phase name: " ++ pyReprStr raw ++
            ". Use 'QA_CONTRACT' or 'QA_E2E' (or add an alias).")
        else .error ("Unknown phase name: " ++ pyReprStr raw ++
          ". Add it to PHASE_ALIASES or use a canonical phase.")

/-- `_normalize_role` (`validate_state.py` lines 128-134). -/
def normalizeRole (raw : String) : Except String String :=
  let r := pyLower (pyStrip raw)
  if r = "" then .error "Role is required."
  else match roleAlias r with
    | some v => .ok v
    | none => .error ("Unknown role: " ++ pyReprStr raw ++ ". Expected one of: " ++
        pyReprStrList (sortStrs (dedupStrs roleAliasValues)))

/-- `_normalize_lane` (`validate_state.py` lines 137-145); `none` models an
absent field, non-string values are not modelled. -/
def normalizeLane (raw : Option String) : Except String String :=
  match raw with
  | none => .ok "FULL"
  | some s =>
    let lane := pyUpper (pyStrip s)
    if lane ∈ EXECUTION_LANES then .ok lane
    else .error ("Unknown execution_lane: " ++ pyReprStr s ++ ". Allowed lanes: " ++
        pyReprStrList (sortStrs EXECUTION_LANES))

/-- `[_canonicalize_phase(x) for x in l]` with the first failure propagated. -/
def canonAll : List String → Except String (List String)
  | [] => .ok []
  | p :: ps =>
    match canonicalizePhase p with
    | .error e => .error e
    | .ok c =>
      match canonAll ps with
      | .error e => .error e
      | .ok cs => .ok (c :: cs)

/-! ### State document model (the fields read and written by the writers) -/

/-- A history entry's `evidence` object (`{path, sha256}`). -/
structure EvidenceObj where
  path : String
  sha256 : String
deriving DecidableEq

/-- A full history entry as written by the transition engine. Optional
fields model JSON values that may be absent. -/
structure HistEntry where
  phase : String
  at_ : Option String
  by_role : Option String
  lane : Option String
  note : String
  evidence : Option EvidenceObj
deriving DecidableEq

/-- One element of `history`: a bare phase string (legacy) or an entry
object with a string `phase` (`_iter_history_phases`, `validate_state.py`
lines 160-174). -/
inductive HistItem where
  | phaseStr (s : String)
  | entry (e : HistEntry)
deriving DecidableEq

/-- The phase carried by a history element. -/
def histItemPhase : HistItem → String
  | .phaseStr s => s
  | .entry e => e.phase

/-- `_iter_history_phases(state.get("history"))`: `none` models an absent
`history` field (Python `None`). -/
def historyPhases (h : Option (List HistItem)) : List String :=
  (h.getD []).map histItemPhase

/-- The state document, restricted to the fields the writers read or
write.  `Option` models an absent (or, for `current_phase`/`next_phase`,
non-string) JSON field; `allow_custom_sequence` is the Python
`state.get("allow_custom_sequence") is True` test; a `required_phase_sequence`
of `none` models the missing/malformed case that the engine replaces by the
lane default. -/
structure TState where
  current_phase : Option String
  next_phase : Option String
  execution_lane : Option String
  is_locked : Option Bool
  required_phase_sequence : Option (List String)
  allow_custom_sequence : Bool
  history : Option (List HistItem)
  last_updated : Option String
  state_hmac : Option String
  lane_reason : Option String
deriving DecidableEq

/-! ### Transition engine (`transition_state.py`) -/

/-- `FULL_ALLOWED_TRANSITIONS` (`transition_state.py` lines 50-66). -/
def FULL_ALLOWED_TRANSITIONS : List (String × String) :=
  [("INIT", "ARCHITECT"),
   ("ARCHITECT", "QA_CONTRACT"),
   ("QA_CONTRACT", "BACKEND"),
   ("BACKEND", "ANALYST_CI_GATE"),
   ("ANALYST_CI_GATE", "BACKEND"),
   ("ANALYST_CI_GATE", "FRONTEND"),
   ("ANALYST_CI_GATE", "ARCHITECT"),
   ("FRONTEND", "QA_E2E"),
   ("FRONTEND", "ANALYST_CI_GATE"),
   ("QA_E2E", "ANALYST_FINAL"),
   ("QA_E2E", "ANALYST_CI_GATE"),
   ("ANALYST_FINAL", "COMPLETE"),
   ("ANALYST_FINAL", "FRONTEND"),
   ("ANALYST_FINAL", "BACKEND"),
   ("ANALYST_FINAL", "ARCHITECT")]

/-- `FAST_UI_ALLOWED_TRANSITIONS` (`transition_state.py` lines 68-78). -/
def FAST_UI_ALLOWED_TRANSITIONS : List (String × String) :=
  [("INIT", "ARCHITECT"),
   ("ARCHITECT", "FRONTEND"),
   ("FRONTEND", "QA_E2E"),
   ("FRONTEND", "ARCHITECT"),
   ("QA_E2E", "ANALYST_FINAL"),
   ("QA_E2E", "FRONTEND"),
   ("ANALYST_FINAL", "COMPLETE"),
   ("ANALYST_FINAL", "FRONTEND"),
   ("ANALYST_FINAL", "ARCHITECT")]

/-- `ALLOWED_TRANSITIONS_BY_LANE.get(lane, FULL_ALLOWED_TRANSITIONS)`. -/
def allowedTransitionsByLane (lane : String) : List (String × String) :=
  if lane = "FULL" then FULL_ALLOWED_TRANSITIONS
  else if lane = "FAST_UI" then FAST_UI_ALLOWED_TRANSITIONS
  else FULL_ALLOWED_TRANSITIONS

/-- `ALLOWED_TRANSITIONS` (`transition_state.py` line 86): the union over
both lanes, used by `state_diff_guard.py`. -/
def ALLOWED_TRANSITIONS : List (String × String) :=
  FULL_ALLOWED_TRANSITIONS ++ FAST_UI_ALLOWED_TRANSITIONS

/-- `sorted([b for (a, b) in transitions if a == from])` where `transitions`
is a Python set: sorted distinct successors. -/
def allowedNextPhases (transitions : List (String × String)) (a : String) : List String :=
  sortStrs (dedupStrs ((transitions.filter fun t => t.1 = a).map Prod.snd))

/-- `_ensure_required_sequence` (`transition_state.py` lines 101-114):
returns the effective sequence and the (possibly updated) state. -/
def ensureRequiredSequence (state : TState) (lane : String) : Except String (List String × TState) :=
  let lane_default := laneRequiredPhaseSequence lane
  match state.required_phase_sequence with
  | some raw =>
    match canonAll raw with
    | .error e => .error e
    | .ok seq =>
      if seq ≠ lane_default ∧ ¬ state.allow_custom_sequence then
        .error "required_phase_sequence must match execution_lane default unless allow_custom_sequence=true."
      else .ok (seq, state)
  | none => .ok (lane_default, { state with required_phase_sequence := some lane_default })

/-- The skip-detection message of `transition_state.py` lines 196-198. -/
def skipMsg (next_phase : String) (missing : List String) : String :=
  "Skip detected: cannot transition to " ++ next_phase ++
    " without completing required phases: " ++ pyReprStrList missing

/-- The no-skipping check (`transition_state.py` lines 188-198). -/
def skipCheck (required_seq : List String) (history : Option (List HistItem))
    (executing_phase next_phase : String) : Except String Unit :=
  if next_phase ∈ required_seq then
    match canonAll (historyPhases history) with
    | .error e => .error e
    | .ok tl =>
      let timeline := tl ++ [executing_phase]
      let missing := (required_seq.take (listIndex required_seq next_phase)).filter
        fun p => p ∉ timeline
      if missing ≠ [] then .error (skipMsg next_phase missing) else .ok ()
  else .ok ()

/-- Evidence hashing (`transition_state.py` lines 200-208).  `files` maps a
path to the file's bytes (`none` = file does not exist). -/
def evidenceResolve (evidence : Option String) (files : String → Option (List Nat)) :
    Except String (Option EvidenceObj) :=
  match evidence with
  | none => .ok none
  | some path =>
    match files path with
    | none => .error ("Evidence file not found: " ++ path)
    | some bytes => .ok (some ⟨path, sha256Hex bytes⟩)

/-- A canonical-serialization stand-in for `_compute_state_hmac`
(`validate_state.py` lines 177-187) over the modelled fields: compact
JSON-style rendering with the keys in sorted order and `state_hmac`
removed, then HMAC-SHA256. -/
def renderOptField (key : String) (v : Option String) : List String :=
  match v with
  | none => []
  | some s => ["\x22" ++ key ++ "\x22:\x22" ++ s ++ "\x22"]

def renderEvidence : Option EvidenceObj → String
  | none => "null"
  | some e => "\x7b\x22path\x22:\x22" ++ e.path ++ "\x22,\x22sha256\x22:\x22" ++ e.sha256 ++ "\x22\x7d"

def renderHistItem : HistItem → String
  | .phaseStr s => "\x22" ++ s ++ "\x22"
  | .entry e =>
    "\x7b\x22at\x22:" ++ (match e.at_ with | none => "null" | some s => "\x22" ++ s ++ "\x22") ++
    ",\x22by_role\x22:" ++ (match e.by_role with | none => "null" | some s => "\x22" ++ s ++ "\x22") ++
    ",\x22evidence\x22:" ++ renderEvidence e.evidence ++
    ",\x22lane\x22:" ++ (match e.lane with | none => "null" | some s => "\x22" ++ s ++ "\x22") ++
    ",\x22note\x22:\x22" ++ e.note ++ "\x22" ++
    ",\x22phase\x22:\x22" ++ e.phase ++ "\x22\x7d"

def renderStrList (l : List String) : String :=
  "[" ++ joinWith "," (l.map fun s => "\x22" ++ s ++ "\x22") ++ "]"

def renderTStateNoHmac (st : TState) : String :=
  "\x7b" ++ joinWith ","
    ((if st.allow_custom_sequence then ["\x22allow_custom_sequence\x22:true"] else []) ++
     renderOptField "current_phase" st.current_phase ++
     renderOptField "execution_lane" st.execution_lane ++
     (match st.history with
      | none => []
      | some h => ["\x22history\x22:[" ++ joinWith "," (h.map renderHistItem) ++ "]"]) ++
     (match st.is_locked with
      | none => []
      | some b => ["\x22is_locked\x22:" ++ (if b then "true" else "false")]) ++
     renderOptField "lane_reason" st.lane_reason ++
     renderOptField "last_updated" st.last_updated ++
     renderOptField "next_phase" st.next_phase ++
     (match st.required_phase_sequence with
      | none => []
      | some l => ["\x22required_phase_sequence\x22:" ++ renderStrList l]))
  ++ "\x7d"

def computeStateHmacT (st : TState) (key : String) : String :=
  hmacSha256Hex (utf8Encode key) (utf8Encode (renderTStateNoHmac st))

/-- Outcome of a successful `transition_state.py` run: the new in-memory
state (also what `--dry-run` prints as rendered JSON), and whether the
`.bak` backup and the state file were written. -/
structure TOut where
  exitCode : Nat
  newState : TState
  wroteBackup : Bool
  wroteState : Bool
deriving DecidableEq

/-- Argument record of `transition_state.py main` (lines 133-145). -/
structure TransitionArgs where
  role : String
  toPhase : String
  evidence : Option String
  note : String
  dryRun : Bool
deriving DecidableEq

/-- `transition_state.py main` (lines 149-257) as a pure function.  The
state file's parsed content is `state`; `hmacKey` is
`SWARM_STATE_HMAC_KEY`; `now` is the frozen `_utc_now_iso()` value;
`files` resolves the `--evidence` path.  Locking, JSON text parsing and
fsync are outside the model; an `Except.error` is a raised
`ValidationError`, before any write. -/
def transitionMain (args : TransitionArgs) (hmacKey : Option String) (now : String)
    (files : String → Option (List Nat)) (state : TState) : Except String TOut :=
  match normalizeRole args.role with
  | .error e => .error e
  | .ok role =>
  match state.current_phase, state.next_phase with
  | some _, some rawNext =>
    (match canonicalizePhase rawNext with
     | .error e => .error e
     | .ok executing_phase =>
     match canonicalizePhase args.toPhase with
     | .error e => .error e
     | .ok next_phase =>
     match normalizeLane state.execution_lane with
     | .error e => .error e
     | .ok lane =>
     let state1 := { state with execution_lane := some lane }
     if state1.is_locked = some true then
       .error "State is locked (is_locked=true). Cannot transition."
     else
       match phaseToRole executing_phase with
       | none => .error ("Internal error: no role mapping for phase " ++ executing_phase ++ ".")
       | some expected_role =>
       if role ≠ expected_role then
         .error ("Role/phase mismatch: role=" ++ pyReprStr role ++ " cannot complete next_phase=" ++
           pyReprStr executing_phase ++ ". Expected role: " ++ pyReprStr expected_role ++ ".")
       else
         let lane_allowed := allowedTransitionsByLane lane
         if (executing_phase, next_phase) ∉ lane_allowed then
           .error ("Illegal transition for execution_lane=" ++ lane ++ ": " ++ executing_phase ++
             " -> " ++ next_phase ++ ". Allowed next phases: " ++
             pyReprStrList (allowedNextPhases lane_allowed executing_phase))
         else
           match ensureRequiredSequence state1 lane with
           | .error e => .error e
           | .ok (required_seq, state2) =>
           match skipCheck required_seq state2.history executing_phase next_phase with
           | .error e => .error e
           | .ok () =>
           match evidenceResolve args.evidence files with
           | .error e => .error e
           | .ok evidence_obj =>
             let history_list := state2.history.getD []
             let entry : HistEntry :=
               ⟨executing_phase, some now, some role, some lane, args.note, evidence_obj⟩
             let state3 := { state2 with
               current_phase := some executing_phase,
               next_phase := some next_phase,
               history := some (history_list ++ [HistItem.entry entry]),
               last_updated := some now }
             let state4 := match hmacKey with
               | some k => { state3 with state_hmac := some (computeStateHmacT state3 k) }
               | none => state3
             if args.dryRun then .ok ⟨0, state4, false, false⟩
             else .ok ⟨0, state4, true, true⟩)
  | _, _ => .error "State must contain string fields: current_phase and next_phase."

/-! ### Lane switcher (`set_execution_lane.py`) -/

structure LaneArgs where
  lane : String
  reason : String
  force : Bool
  dryRun : Bool
deriving DecidableEq

structure LOut where
  exitCode : Nat
  newState : TState
  wroteBackup : Bool
  wroteState : Bool
deriving DecidableEq

/-- `set_execution_lane.py main` (lines 53-127) as a pure function. -/
def setExecutionLaneMain (args : LaneArgs) (hmacKey : Option String) (state : TState) :
    Except String LOut :=
  match normalizeLane (some args.lane) with
  | .error e => .error e
  | .ok lane =>
  match normalizeLane state.execution_lane with
  | .error e => .error e
  | .ok current_lane =>
  if lane = current_lane then .ok ⟨0, state, false, false⟩
  else
    match state.current_phase, state.next_phase with
    | some curRaw, some nxtRaw =>
      (match canonicalizePhase curRaw with
       | .error e => .error e
       | .ok current_phase =>
       match canonicalizePhase nxtRaw with
       | .error e => .error e
       | .ok next_phase =>
       if ¬ args.force ∧
           (current_phase ∉ (["INIT", "ARCHITECT", "COMPLETE"] : List String) ∨
            next_phase ∉ (["ARCHITECT", "FRONTEND", "QA_CONTRACT"] : List String)) then
         .error ("Lane switch is only allowed at architecture boundary (current=" ++ current_phase ++
           ", next=" ++ next_phase ++ "). Use --force only for recovery.")
       else
         let state1 := { state with
           execution_lane := some lane,
           required_phase_sequence := some (laneRequiredPhaseSequence lane),
           lane_reason := if args.reason ≠ "" then some args.reason else state.lane_reason }
         let state2 := match hmacKey with
           | some k => { state1 with state_hmac := some (computeStateHmacT state1 k) }
           | none => state1
         if args.dryRun then .ok ⟨0, state2, false, false⟩
         else .ok ⟨0, state2, true, true⟩)
    | _, _ => .error "State must contain string fields current_phase and next_phase."

/-! ### Policy engine (`policy_guard.py`) -/

/-- `fnmatch.fnmatch` translated for the patterns the policy uses: `*`
matches any character run (including `/`), `?` any single character, other
characters literally.  Fuel-based so concrete evaluation reduces in the
kernel; the initial fuel `|pattern| + |path| + 1` is never exhausted. -/
def fnmatchFuel : Nat → List Char → List Char → Bool
  | 0, _, _ => false
  | _ + 1, [], s => s.isEmpty
  | fuel + 1, p :: ps, s =>
    if p = '*' then
      fnmatchFuel fuel ps s ||
        (match s with
         | [] => false
         | _ :: ss => fnmatchFuel fuel (p :: ps) ss)
    else
      match s with
      | [] => false
      | c :: ss => (p = '?' || p = c) && fnmatchFuel fuel ps ss

def fnmatch (path pat : String) : Bool :=
  fnmatchFuel (pat.data.length + path.data.length + 1) pat.data path.data

/-- `_matches_any` (`policy_guard.py` lines 202-203). -/
def matchesAny (path : String) (globs : List String) : Bool :=
  globs.any (fnmatch path)

/-- `GLOBAL_DENY_GLOBS_AGENT` (`policy_guard.py` lines 41-45). -/
def GLOBAL_DENY_GLOBS_AGENT : List String := ["tasks/logs/**", "tasks/evidence/**"]

def CODEOWNERS_PATH : String := ".github/CODEOWNERS"

/-- `ROLE_ALLOW_GLOBS_AGENT` (`policy_guard.py` lines 50-147). -/
def roleAllowGlobs (role : String) : List String :=
  if role = "architect" then
    ["SWARM_CONSTITUTION.md", "SWARM_ARCHITECTURE.md", "TASKS_CONTEXT.md", "README.md",
     ".gitignore", "package.json", "package-lock.json", "tsconfig.json", "vitest.config.ts",
     "playwright.config.ts", "next-env.d.ts", "swarm_state.json", "docs/**",
     "config/personas/**", ".github/**", "githooks/**", "swarm/**", "requirements.txt",
     "app/**", "components/**", "data/**", "lib/**", "public/**", "src/**", "tests/**",
     "workflows/**", "tasks/queue/**", "tasks/reports/**", "tasks/completed/**",
     "tasks/changes/**", "tasks/feedback/**"]
  else if role = "qa" then
    ["tests/**", "vitest.config.ts", "playwright.config.ts", "package.json",
     "package-lock.json", "scripts/test.sh", "TASKS_CONTEXT.md", "swarm_state.json",
     "tasks/reports/**", "tasks/changes/**"]
  else if role = "backend" then
    ["app/**", "components/**", "data/**", "lib/**", "src/**", "package.json",
     "package-lock.json", "tsconfig.json", "swarm_state.json", "tasks/reports/**",
     "tasks/changes/**"]
  else if role = "frontend" then
    ["app/**", "components/**", "data/**", "public/**", "package.json",
     "package-lock.json", "tsconfig.json", "swarm_state.json", "tasks/reports/**",
     "tasks/changes/**"]
  else if role = "analyst" then
    ["tasks/feedback/**", "tasks/reports/**", "tasks/completed/**", "tasks/changes/**",
     "docs/**", "swarm_state.json"]
  else if role = "orchestrator" then
    ["swarm_state.json", "tasks/logs/**", "tasks/evidence/**", "tasks/reports/**",
     "tasks/queue/**", "tasks/completed/**", "tasks/changes/**"]
  else []

/-- `ROLE_DENY_GLOBS_AGENT` (`policy_guard.py` lines 150-154). -/
def roleDenyGlobs (role : String) : List String :=
  if role = "backend" then ["tests/**"]
  else if role = "frontend" then ["tests/**"]
  else []

/-- `_is_allowed` (`policy_guard.py` lines 206-239): `(ok, reason)`. -/
def isAllowed (path role actor statePath : String)
    (allowStateEdit allowCodeownersEdit : Bool) : Bool × String :=
  if path = statePath ∧ ¬ allowStateEdit ∧ actor ≠ "orchestrator" then
    (false, statePath ++ " is orchestrator-only in working-tree mode. Use transition_state.py.")
  else if path = CODEOWNERS_PATH ∧ ¬ allowCodeownersEdit then
    (false, CODEOWNERS_PATH ++
      " is protected; set --allow-codeowners-edit or CMAS_ALLOW_CODEOWNERS_EDIT=1 to modify it.")
  else if actor ≠ "orchestrator" ∧ matchesAny path GLOBAL_DENY_GLOBS_AGENT then
    (false, "Path is orchestrator-only: " ++ path)
  else
    let allow := roleAllowGlobs role
    if allow = [] then (false, "No allowlist configured for role " ++ pyReprStr role)
    else if ¬ matchesAny path allow then
      (false, "Path not in allowlist for role " ++ pyReprStr role ++ ": " ++ path)
    else
      let deny := roleDenyGlobs role
      if deny ≠ [] ∧ matchesAny path deny then
        (false, "Path denied for role " ++ pyReprStr role ++ ": " ++ path)
      else (true, "")

structure Violation where
  path : String
  reason : String
deriving DecidableEq

/-- The violation loop of `policy_guard.py main` (lines 303-314). -/
def policyViolations (changed : List String) (role actor statePath : String)
    (allowStateEdit allowCodeownersEdit : Bool) : List Violation :=
  changed.filterMap fun p =>
    let r := isAllowed p role actor statePath allowStateEdit allowCodeownersEdit
    if r.1 then none else some ⟨p, r.2⟩

/-- `policy_guard.py main` in working-tree mode (lines 276-338), with the
changed-file set and the state document's `next_phase` as inputs: resolves
the role (lines 282-298), evaluates each changed path and returns the exit
code with the violations.  Working-tree mode has `allow_state_edit=False`. -/
def policyGuardWorkingTree (nextPhaseRaw : String) (roleArg : Option String)
    (actorRaw : String) (changed : List String) (statePath : String)
    (allowCodeownersEdit : Bool) : Except String (Nat × List Violation) :=
  match canonicalizePhase nextPhaseRaw with
  | .error e => .error e
  | .ok next_phase =>
  match phaseToRole next_phase with
  | none => .error ("Internal error: no role mapping for next_phase=" ++ next_phase ++ ".")
  | some expected_role =>
  let actor := pyLower (pyStrip actorRaw)
  if actor ≠ "agent" ∧ actor ≠ "orchestrator" then
    .error "actor must be 'agent' or 'orchestrator'."
  else
    match (match roleArg with
           | none => Except.ok expected_role
           | some r => normalizeRole r) with
    | .error e => .error e
    | .ok role =>
      if role ≠ expected_role then
        .error ("Role/phase mismatch: next_phase=" ++ next_phase ++ " expects role=" ++
          expected_role ++ ", got role=" ++ role ++ ".")
      else
        let violations := policyViolations changed role
          (if actor = "orchestrator" then "orchestrator" else "agent") statePath false allowCodeownersEdit
        .ok (if violations = [] then 0 else 1, violations)

/-! ### Evidence ledger (`capture_test_output.py`) -/

def isHexLowerChar (c : Char) : Bool := ('0' ≤ c ∧ c ≤ '9') ∨ ('a' ≤ c ∧ c ≤ 'f')

/-- One line matched against the pattern of `_find_last_hmac`
(`capture_test_output.py` line 57).  The pattern is the raw string
`^- hmac: ([0-9a-f]\x7b64\x7d)\\s*$`: the doubled backslash makes the regex
require a literal backslash after the 64 hex digits, followed by zero or
more letters `s`, before the end of the line. -/
def hmacLineCapture (line : String) : Option String :=
  if pyStartsWith line "- hmac: " then
    let rest := line.data.drop 8
    let hex := rest.take 64
    if hex.length = 64 ∧ hex.all isHexLowerChar then
      match rest.drop 64 with
      | '\\' :: tail => if tail.all (fun c => c = 's') then some ⟨hex⟩ else none
      | _ => none
    else none
  else none

/-- `_find_last_hmac` (`capture_test_output.py` lines 55-58): the last
match of the (multiline) pattern, or the empty string. -/
def findLastHmac (ciLogsMd : String) : String :=
  (((pySplit '\n' ciLogsMd).filterMap hmacLineCapture).getLast?).getD ""

/-- `_compute_block_hmac` (`capture_test_output.py` lines 61-63). -/
def computeBlockHmac (key : String) (prevHmac block : String) : String :=
  hmacSha256Hex (utf8Encode key) (utf8Encode (prevHmac ++ "\n" ++ block))

/-- `_extract_head_lines` (`capture_test_output.py` lines 48-52). -/
def extractHeadLines (text : String) (maxLines : Nat) : String :=
  let lines := pySplitlines text
  if lines.length ≤ maxLines then text else joinWith "\n" (lines.take maxLines)

/-- `_extract_tail_lines` (`capture_test_output.py` lines 41-45). -/
def extractTailLines (text : String) (maxLines : Nat) : String :=
  let lines := pySplitlines text
  if lines.length ≤ maxLines then text
  else joinWith "\n" (lines.drop (lines.length - maxLines))

def listFindIdx (p : String → Bool) : List String → Option Nat
  | [] => none
  | x :: xs =>
    if p x then some 0
    else match listFindIdx p xs with
      | some i => some (i + 1)
      | none => none

structure CaptureArgs where
  command : String
  exitCode : Int
  actor : String
  phase : String
  taskId : String
  evidenceDir : String
  maxSnippetLines : Nat
deriving DecidableEq

structure CaptureOut where
  runId : String
  digest : String
  evidencePath : String
  blobWritten : Bool
  blobContent : List Nat
  appended : String
  ledger : String
deriving DecidableEq

/-- `capture_test_output.py main` (lines 66-161) as a pure function over
the input blob's bytes, the existing ledger text (`""` when the file is
absent), the set of blob files already present, the `SWARM_LOG_HMAC_KEY`
value and the frozen timestamp (ISO form and `%Y%m%dT%H%M%SZ` compact
form). -/
def captureMain (raw : List Nat) (args : CaptureArgs) (existing : String)
    (blobNames : List String) (key : Option String) (tsIso tsCompact : String) : CaptureOut :=
  let digest := sha256Hex raw
  let run_id := "L1-" ++ tsCompact ++ "-" ++ strTake digest 8
  let evidence_path := args.evidenceDir ++ "/" ++ run_id ++ "_" ++ digest ++ ".log"
  let blobWritten := evidence_path ∉ blobNames
  let text := utf8DecodeReplace raw
  let head := extractHeadLines text args.maxSnippetLines
  let tail := extractTailLines text args.maxSnippetLines
  let block_lines : List String :=
    ["## Run: " ++ run_id,
     "- timestamp_utc: " ++ tsIso,
     "- actor: " ++ args.actor,
     "- phase: " ++ args.phase,
     "- task_id: " ++ args.taskId,
     "- command: `" ++ args.command ++ "`",
     "- exit_code: " ++ toString args.exitCode,
     "- sha256: " ++ digest,
     "- evidence: `" ++ evidence_path ++ "`",
     "",
     "<details>",
     "<summary>stdout/stderr snippets (head + tail)</summary>",
     "",
     "```text",
     "### HEAD",
     pyRstripNl head,
     "",
     "### TAIL",
     pyRstripNl tail,
     "```",
     "</details>",
     ""]
  let block := joinWith "\n" block_lines
  let prev_hmac := findLastHmac existing
  let hmac_line := match key with
    | some k => "- hmac: " ++ computeBlockHmac k prev_hmac block ++ "\n- prev_hmac: " ++ prev_hmac ++ "\n"
    | none => ""
  let sep := if existing ≠ "" ∧ ¬ pyEndsWith existing "\n" then "\n" else ""
  let payload :=
    if hmac_line ≠ "" then
      let lines := pySplitlines block
      match listFindIdx (fun l => pyStartsWith l "- evidence:") lines with
      | none => block
      | some i =>
        joinWith "\n" (lines.take (i + 1) ++ pySplitlines (pyRstripNl hmac_line) ++ lines.drop (i + 1)) ++ "\n"
    else block ++ "\n"
  let appended := sep ++ payload
  ⟨run_id, digest, evidence_path, blobWritten, raw, appended, existing ++ appended⟩

/-- The `- hmac:` values stored in a ledger, in order (a plain extraction
used to state the chain property, independent of `_find_last_hmac`). -/
def storedHmacs (ledger : String) : List String :=
  (pySplit '\n' ledger).filterMap fun l =>
    if pyStartsWith l "- hmac: " then some ⟨l.data.drop 8⟩ else none

/-- The `- prev_hmac:` values stored in a ledger, in order. -/
def storedPrevHmacs (ledger : String) : List String :=
  (pySplit '\n' ledger).filterMap fun l =>
    if pyStartsWith l "- prev_hmac: " then some ⟨l.data.drop 13⟩ else none

/-! ### Command runner and orchestrator (`run_and_capture.py`, `orchestrate.py`) -/

/-- `run_and_capture.py main` (lines 36-68): the process exit code unless
the capture step fails, in which case the reserved code 2. -/
def runAndCaptureRc (cmdExit : Int) (captureOk : Bool) : Int :=
  if ¬ captureOk then 2 else cmdExit

inductive OStep where
  | validate
  | policy
  | mocks
  | placeholders
  | runCmd
  | transitionStep
deriving DecidableEq

/-- `orchestrate.py main` (lines 116-199) as a function of each step's
exit code: the chain's exit code and the steps that were executed.
`captureOk` distinguishes a failing captured command (`runAndCaptureRc =
cmdExit`) from a capture failure (`runAndCaptureRc = 2`). -/
def orchestrateChain (vRc pRc mRc plRc : Int) (cmdExit : Int) (captureOk : Bool)
    (tRc : Int) : Int × List OStep :=
  if vRc ≠ 0 then (vRc, [.validate])
  else if pRc ≠ 0 then (pRc, [.validate, .policy])
  else if mRc ≠ 0 then (mRc, [.validate, .policy, .mocks])
  else if plRc ≠ 0 then (plRc, [.validate, .policy, .mocks, .placeholders])
  else
    let cmd_exit := runAndCaptureRc cmdExit captureOk
    if cmd_exit = 2 then (2, [.validate, .policy, .mocks, .placeholders, .runCmd])
    else if tRc ≠ 0 then
      (tRc, [.validate, .policy, .mocks, .placeholders, .runCmd, .transitionStep])
    else (0, [.validate, .policy, .mocks, .placeholders, .runCmd, .transitionStep])

/-! ### State-diff guard (`state_diff_guard.py`) -/

/-- The state fields the diff guard reads from a git snapshot. -/
structure DState where
  current_phase : Option String
  next_phase : Option String
  required_phase_sequence : Option (List String)
  is_locked : Option Bool
  history : Option (List HistItem)
deriving DecidableEq

structure DiffResult where
  ok : Bool
  changed : Bool
  errors : List String
deriving DecidableEq

/-- `_is_sha256_hex` (`state_diff_guard.py` lines 53-54). -/
def isSha256Hex (s : String) : Bool :=
  s.data.length = 64 ∧ s.data.all isHexLowerChar

/-- `_looks_like_iso_z` (`state_diff_guard.py` lines 57-59).  The source's
raw pattern contains a doubled backslash, so the character class after `T`
excludes a literal backslash and the letter `s` (not whitespace). -/
def looksLikeIsoZ (s : String) : Bool :=
  match s.data with
  | a :: b :: c :: d :: '-' :: e :: f :: '-' :: g :: h :: 'T' :: rest =>
    ([a, b, c, d, e, f, g, h].all Char.isDigit) &&
      (match rest.reverse with
       | 'Z' :: midRev => ¬ midRev.isEmpty ∧ midRev.all fun ch => ch ≠ '\\' ∧ ch ≠ 's'
       | _ => false)
  | _ => false

/-- Checks on the single new history entry (`state_diff_guard.py` lines
145-184). -/
def newEntryErrs (item : HistItem) (base_next : Option String) : List String :=
  match item with
  | .phaseStr _ => ["history new entry must be an object."]
  | .entry e =>
    (match canonicalizePhase e.phase with
     | .error err => ["history new entry: invalid phase: " ++ err]
     | .ok entry_phase =>
       match base_next with
       | some bn => if entry_phase ≠ bn then ["history new entry: phase must equal base.next_phase."] else []
       | none => []) ++
    (match base_next with
     | some bn =>
       match phaseToRole bn with
       | none => ["Internal error: no role mapping for phase " ++ bn ++ "."]
       | some expected_role =>
         if e.by_role ≠ some expected_role then
           ["history new entry: by_role must be " ++ pyReprStr expected_role ++ " for phase " ++ bn ++ "."]
         else []
     | none => []) ++
    (match e.at_ with
     | some at1 => if at1 ≠ "" ∧ looksLikeIsoZ at1 then [] else
         ["history new entry: at must be an ISO-8601 timestamp ending with 'Z'."]
     | none => ["history new entry: at must be an ISO-8601 timestamp ending with 'Z'."]) ++
    (match e.evidence with
     | some ev => if ¬ isSha256Hex ev.sha256 then
         ["history new entry: evidence.sha256 must be a 64-char lowercase hex string."] else []
     | none => [])

/-- The history checks of `_validate_state_transition` (`state_diff_guard.py`
lines 134-184). -/
def historyErrs (base_hist head_hist : Option (List HistItem)) (base_next : Option String) :
    List String :=
  match base_hist, head_hist with
  | some bh, some hh =>
    if hh.length ≠ bh.length + 1 then
      ["history must be append-only with exactly 1 new entry per transition PR."]
    else
      (if hh.take bh.length ≠ bh then
        ["history prefix mismatch: base history must be preserved verbatim (append-only)."]
       else []) ++
      (match hh.getLast? with
       | some item => newEntryErrs item base_next
       | none => [])
  | _, _ => ["history must be a JSON array in both base and head swarm_state.json."]

/-- The repeated string-or-canonicalize pattern of
`_validate_state_transition` (`state_diff_guard.py` lines 85-113):
collected errors and the canonical phase when parseable. -/
def parsePhaseField (missingMsg invalidLabel : String) (v : Option String) :
    List String × Option String :=
  match v with
  | none => ([missingMsg], none)
  | some s =>
    match canonicalizePhase s with
    | .error e => ([invalidLabel ++ e], none)
    | .ok c => ([], some c)

/-- The error list collected by `_validate_state_transition`
(`state_diff_guard.py` lines 73-186) once the state file is known to have
changed. -/
def diffErrors (base head : DState) : List String :=
    let pBaseNext := parsePhaseField "Base swarm_state.json.next_phase must be a string."
      "Base next_phase invalid: " base.next_phase
    let pHeadCurrent := parsePhaseField "Head swarm_state.json.current_phase must be a string."
      "Head current_phase invalid: " head.current_phase
    let pHeadNext := parsePhaseField "Head swarm_state.json.next_phase must be a string."
      "Head next_phase invalid: " head.next_phase
    let base_next := pBaseNext.2
    let head_current := pHeadCurrent.2
    let head_next := pHeadNext.2
    let eSem := match base_next, head_current with
      | some bn, some hc =>
        if hc ≠ bn then
          ["Invalid transition semantics: head.current_phase=" ++ hc ++
            " must equal base.next_phase=" ++ bn ++ "."]
        else []
      | _, _ => []
    let eLegal := match base_next, head_next with
      | some bn, some hn =>
        if (bn, hn) ∉ ALLOWED_TRANSITIONS then
          ["Illegal transition: " ++ bn ++ " -> " ++ hn ++ ". Allowed next phases: " ++
            pyReprStrList (allowedNextPhases ALLOWED_TRANSITIONS bn)]
        else []
      | _, _ => []
    let eSeq := if base.required_phase_sequence ≠ head.required_phase_sequence then
        ["required_phase_sequence must not change in a PR (protected invariant)."] else []
    let eLock := if base.is_locked ≠ head.is_locked then
        ["is_locked must not change in a PR (protected invariant)."] else []
    let eHist := historyErrs base.history head.history base_next
    pBaseNext.1 ++ pHeadCurrent.1 ++ pHeadNext.1 ++ eSem ++ eLegal ++ eSeq ++ eLock ++ eHist

/-- `_validate_state_transition` (`state_diff_guard.py` lines 67-187).
`changed` is the result of `_state_changed`; when false the base and head
snapshots are not even loaded. -/
def validateStateTransition (changed : Bool) (base head : DState) : DiffResult :=
  match changed with
  | false => ⟨true, false, []⟩
  | true => ⟨(diffErrors base head).isEmpty, true, diffErrors base head⟩

/-- `state_diff_guard.py main` (lines 190-247): exit 0 iff the result is OK. -/
def diffGuardExit (changed : Bool) (base head : DState) : Nat :=
  if (validateStateTransition changed base head).ok then 0 else 1

/-! ### Concrete scenario inputs (spec section 8) -/

/-- Scenario A initial state: current INIT, next ARCHITECT, FULL lane,
empty history. -/
def scenAState : TState :=
  { current_phase := some "INIT", next_phase := some "ARCHITECT",
    execution_lane := some "FULL", is_locked := none,
    required_phase_sequence := none, allow_custom_sequence := false,
    history := some [], last_updated := none, state_hmac := none, lane_reason := none }

def scenAArgs : TransitionArgs :=
  { role := "architect", toPhase := "QA_CONTRACT", evidence := some "ev.txt",
    note := "plan", dryRun := false }

/-- The evidence file of scenario A: `ev.txt` exists and is empty. -/
def scenAFiles : String → Option (List Nat) := fun p => if p = "ev.txt" then some [] else none

def scenATime : String := "2025-01-01T00:00:00Z"

/-- The state scenario A's transition writes. -/
def scenAResultState : TState :=
  { current_phase := some "ARCHITECT", next_phase := some "QA_CONTRACT",
    execution_lane := some "FULL", is_locked := none,
    required_phase_sequence := some DEFAULT_REQUIRED_PHASE_SEQUENCE,
    allow_custom_sequence := false,
    history := some [HistItem.entry ⟨"ARCHITECT", some scenATime, some "architect",
      some "FULL", "plan",
      some ⟨"ev.txt", "e3b0c44298fc1c149afbf4c8996fb92427ae41e4649b934ca495991b7852b855"⟩⟩],
    last_updated := some scenATime, state_hmac := none, lane_reason := none }

/-- Scenario B state: current ARCHITECT, next QA_CONTRACT, FULL lane. -/
def scenBState : TState :=
  { scenAState with current_phase := some "ARCHITECT", next_phase := some "QA_CONTRACT" }

def scenBArgs : TransitionArgs :=
  { role := "qa", toPhase := "FRONTEND", evidence := none, note := "", dryRun := false }

/-- A backward fix-loop request: completing ANALYST_CI_GATE and looping
back to BACKEND with all earlier required phases in the timeline. -/
def fixLoopState : TState :=
  { scenAState with
    current_phase := some "BACKEND", next_phase := some "ANALYST_CI_GATE",
    history := some [HistItem.phaseStr "ARCHITECT", HistItem.phaseStr "QA_CONTRACT",
      HistItem.phaseStr "BACKEND"] }

def fixLoopArgs : TransitionArgs :=
  { role := "analyst", toPhase := "BACKEND", evidence := none, note := "", dryRun := false }

def fixLoopResultState : TState :=
  { fixLoopState with
    current_phase := some "ANALYST_CI_GATE", next_phase := some "BACKEND",
    required_phase_sequence := some DEFAULT_REQUIRED_PHASE_SEQUENCE,
    history := some [HistItem.phaseStr "ARCHITECT", HistItem.phaseStr "QA_CONTRACT",
      HistItem.phaseStr "BACKEND",
      HistItem.entry ⟨"ANALYST_CI_GATE", some scenATime, some "analyst", some "FULL", "", none⟩],
    last_updated := some scenATime }

/-- A skip request: the timeline lacks QA_CONTRACT and the transition
targets FRONTEND. -/
def skipState : TState :=
  { scenAState with
    current_phase := some "BACKEND", next_phase := some "ANALYST_CI_GATE",
    history := some [HistItem.phaseStr "ARCHITECT", HistItem.phaseStr "BACKEND"] }

def skipArgs : TransitionArgs :=
  { role := "analyst", toPhase := "FRONTEND", evidence := none, note := "", dryRun := false }

/-- A transition result rejected by the no-skipping rule. -/
def isSkipError (r : Except String TOut) : Prop :=
  ∃ m, r = .error m ∧ pyStartsWith m "Skip detected" = true

/-- Capture arguments shared by the concrete ledger scenarios. -/
def capArgs1 : CaptureArgs :=
  { command := "c1", exitCode := 0, actor := "orchestrator", phase := "", taskId := "",
    evidenceDir := "tasks/evidence/test-runs", maxSnippetLines := 200 }

def capArgs2 : CaptureArgs := { capArgs1 with command := "c2", exitCode := 1 }

/-- First capture with `SWARM_LOG_HMAC_KEY=k`: raw bytes `b"a"`, empty ledger. -/
def c2Out1 : CaptureOut :=
  captureMain [97] capArgs1 "" [] (some "k") "2025-01-01T00:00:00Z" "20250101T000000Z"

/-- Second capture with the same key: raw bytes `b"b"`, appended to the
first capture's ledger. -/
def c2Out2 : CaptureOut :=
  captureMain [98] capArgs2 c2Out1.ledger [c2Out1.evidencePath] (some "k")
    "2025-01-01T00:00:01Z" "20250101T000001Z"

/-- Re-capture of the identical bytes `b"a"` one second later (no key). -/
def c8Out1 : CaptureOut :=
  captureMain [97] capArgs1 "" [] none "2025-01-01T00:00:00Z" "20250101T000000Z"

def c8Out2 : CaptureOut :=
  captureMain [97] capArgs1 c8Out1.ledger [c8Out1.evidencePath] none
    "2025-01-01T00:00:01Z" "20250101T000001Z"

/-- Scenario A arguments with `--dry-run`. -/
def scenADryArgs : TransitionArgs := { scenAArgs with dryRun := true }

/-- A dry-run lane switch from scenario A's state to FAST_UI. -/
def laneDryArgs : LaneArgs := { lane := "FAST_UI", reason := "ui", force := false, dryRun := true }

/-- The state the dry-run lane switch renders (but does not write). -/
def laneDryResultState : TState :=
  { scenAState with
    execution_lane := some "FAST_UI",
    required_phase_sequence := some ["ARCHITECT", "FRONTEND", "QA_E2E", "ANALYST_FINAL"],
    lane_reason := some "ui" }

/-- Diff-guard base snapshot: next QA_CONTRACT, empty history. -/
def dgBase : DState :=
  { current_phase := some "ARCHITECT", next_phase := some "QA_CONTRACT",
    required_phase_sequence := none, is_locked := some false, history := some [] }

/-- Diff-guard head snapshot after one legal transition. -/
def dgHeadOk : DState :=
  { current_phase := some "QA_CONTRACT", next_phase := some "BACKEND",
    required_phase_sequence := none, is_locked := some false,
    history := some [HistItem.entry ⟨"QA_CONTRACT", some "2025-01-01T00:00:00Z", some "qa",
      some "FULL", "", none⟩] }

/-- Diff-guard head snapshot whose history did not grow. -/
def dgHeadNoAppend : DState :=
  { current_phase := some "QA_CONTRACT", next_phase := some "BACKEND",
    required_phase_sequence := none, is_locked := some false, history := some [] }

/-! ### Helper lemmas -/

set_option maxHeartbeats 1000000 in
theorem phaseAlias_mem (u v : String) (h : phaseAlias u = some v) : v ∈ CANONICAL_PHASES := by
  unfold phaseAlias at h
  split_ifs at h
  all_goals simp only [Option.some.injEq] at h
  all_goals subst h
  all_goals decide

theorem canonicalizePhase_mem (x y : String) (h : canonicalizePhase x = .ok y) :
    y ∈ CANONICAL_PHASES := by
  simp only [canonicalizePhase] at h
  split at h
  · cases h
  · split at h
    · injection h with h
      subst h
      assumption
    · split at h
      · rename_i v hv
        injection h with h
        subst h
        exact phaseAlias_mem _ _ hv
      · split_ifs at h
        all_goals injection h with h
        all_goals subst h
        all_goals decide

theorem canonicalizePhase_fixed (y : String) (hy : y ∈ CANONICAL_PHASES) :
    canonicalizePhase y = .ok y := by
  simp only [CANONICAL_PHASES, List.mem_cons, List.not_mem_nil, or_false] at hy
  rcases hy with rfl | rfl | rfl | rfl | rfl | rfl | rfl | rfl | rfl <;> decide

/-! ### Claim theorems -/

/-- C9: phase canonicalization is idempotent: every input `x` that
`canonicalize_phase` accepts maps to a member of the closed canonical
phase set, and every canonical phase maps to itself, hence
`canonicalize(canonicalize(x)) = canonicalize(x)`. -/
theorem canonicalizePhase_idempotent (x y : String) (h : canonicalizePhase x = .ok y) :
    y ∈ CANONICAL_PHASES ∧ canonicalizePhase y = .ok y :=
  ⟨canonicalizePhase_mem x y h,
   canonicalizePhase_fixed y (canonicalizePhase_mem x y h)⟩

/-- C9 witness: the accepted legacy alias `qa_validation` canonicalizes to
`QA_E2E`, which is canonical and a fixed point. -/
theorem canonicalizePhase_idempotent_witness :
    "QA_E2E" ∈ CANONICAL_PHASES ∧ canonicalizePhase "QA_E2E" = .ok "QA_E2E" :=
  canonicalizePhase_idempotent "qa_validation" "QA_E2E" (by decide)

/-- C3 counterexample: with every guard passing and the captured command
exiting 1 (capture itself succeeding), the orchestrator does not return 1
and does execute the state-transition step, contrary to the claim that a
non-zero command exit aborts the chain before the transition. -/
theorem orchestrateChain_cmd_exit_counterexample :
    (orchestrateChain 0 0 0 0 1 true 0).1 ≠ 1 ∧
    OStep.transitionStep ∈ (orchestrateChain 0 0 0 0 1 true 0).2 := by decide

/-- C3 (amended): each of the validation, policy, no-mocks and
no-placeholders steps aborts the chain with its own exit code; the
run-and-capture step aborts (with the reserved code 2) exactly when it
returns 2, i.e. when evidence capture fails; otherwise the chain proceeds
to the transition step and propagates a non-zero transition exit code,
returning 0 on success regardless of the captured command's exit code. -/
theorem orchestrateChain_exit_propagation (v p m pl ce : Int) (cap : Bool) (t : Int) :
    (v ≠ 0 → orchestrateChain v p m pl ce cap t = (v, [.validate])) ∧
    (v = 0 → p ≠ 0 → orchestrateChain v p m pl ce cap t = (p, [.validate, .policy])) ∧
    (v = 0 → p = 0 → m ≠ 0 →
      orchestrateChain v p m pl ce cap t = (m, [.validate, .policy, .mocks])) ∧
    (v = 0 → p = 0 → m = 0 → pl ≠ 0 →
      orchestrateChain v p m pl ce cap t = (pl, [.validate, .policy, .mocks, .placeholders])) ∧
    (v = 0 → p = 0 → m = 0 → pl = 0 → runAndCaptureRc ce cap = 2 →
      orchestrateChain v p m pl ce cap t =
        (2, [.validate, .policy, .mocks, .placeholders, .runCmd])) ∧
    (v = 0 → p = 0 → m = 0 → pl = 0 → runAndCaptureRc ce cap ≠ 2 →
      orchestrateChain v p m pl ce cap t =
        ((if t ≠ 0 then t else 0),
         [.validate, .policy, .mocks, .placeholders, .runCmd, .transitionStep])) := by
  refine ⟨?_, ?_, ?_, ?_, ?_, ?_⟩
  · intro h1
    simp [orchestrateChain, h1]
  · intro h1 h2
    subst h1
    simp [orchestrateChain, h2]
  · intro h1 h2 h3
    subst h1 h2
    simp [orchestrateChain, h3]
  · intro h1 h2 h3 h4
    subst h1 h2 h3
    simp [orchestrateChain, h4]
  · intro h1 h2 h3 h4 h5
    subst h1 h2 h3 h4
    simp [orchestrateChain, h5]
  · intro h1 h2 h3 h4 h5
    subst h1 h2 h3 h4
    simp only [orchestrateChain, ne_eq, not_true_eq_false, if_false, if_neg h5]
    split <;> simp_all

/-- C3 witness: a failing validator propagates its code 3; a capture
failure aborts with 2 before the transition step. -/
theorem orchestrateChain_exit_propagation_witness :
    orchestrateChain 3 0 0 0 0 true 0 = (3, [.validate]) ∧
    orchestrateChain 0 0 0 0 5 false 7 = (2, [.validate, .policy, .mocks, .placeholders, .runCmd]) :=
  ⟨(orchestrateChain_exit_propagation 3 0 0 0 0 true 0).1 (by decide),
   (orchestrateChain_exit_propagation 0 0 0 0 5 false 7).2.2.2.2.1 rfl rfl rfl rfl (by decide)⟩

/-- C5 counterexample: scenario B's transition does not fail with the
claimed message "Illegal transition: QA_CONTRACT -> FRONTEND. Allowed next
phases: [BACKEND]" (the engine's message names the execution lane and
renders the allowed list in Python repr form). -/
theorem illegal_transition_counterexample :
    transitionMain scenBArgs none scenATime scenAFiles scenBState ≠
      .error "Illegal transition: QA_CONTRACT -> FRONTEND. Allowed next phases: [BACKEND]" := by
  decide

/-- C5 (amended): scenario B's transition fails with the single error
"Illegal transition for execution_lane=FULL: QA_CONTRACT -> FRONTEND.
Allowed next phases: ['BACKEND']"; an error result carries no state write
and no backup in the model, so the state file is untouched. -/
theorem illegal_transition_actual :
    transitionMain scenBArgs none scenATime scenAFiles scenBState =
      .error "Illegal transition for execution_lane=FULL: QA_CONTRACT -> FRONTEND. Allowed next phases: ['BACKEND']" := by
  decide

/-- C6 counterexample: in scenario D the single violation on
tests/y.test.ts is not reported by the role-deny-glob rule "Path denied
for role 'backend'". -/
theorem policy_scenarioD_counterexample :
    policyGuardWorkingTree "BACKEND" (some "backend") "agent" ["app/x.ts", "tests/y.test.ts"]
      "swarm_state.json" false ≠
    .ok (1, [⟨"tests/y.test.ts", "Path denied for role 'backend': tests/y.test.ts"⟩]) := by
  decide

/-- C6 (amended): scenario D yields exactly one violation, on
tests/y.test.ts, reported by the allowlist rule "Path not in allowlist for
role 'backend'" (backend's allowlist has no tests glob, so the allowlist
check fires before the deny-glob check); app/x.ts is allowed. -/
theorem policy_scenarioD_actual :
    policyGuardWorkingTree "BACKEND" (some "backend") "agent" ["app/x.ts", "tests/y.test.ts"]
      "swarm_state.json" false =
    .ok (1, [⟨"tests/y.test.ts", "Path not in allowlist for role 'backend': tests/y.test.ts"⟩]) ∧
    isAllowed "app/x.ts" "backend" "agent" "swarm_state.json" false false = (true, "") := by
  exact ⟨by decide, by decide⟩

/-- C8 counterexample: two captures of the identical bytes b"a" one second
apart write two distinct blobs (the run id embeds the timestamp), so
re-capturing identical bytes is not a no-op for the blob store. -/
theorem capture_recapture_counterexample :
    c8Out2.blobContent = c8Out1.blobContent ∧
    c8Out2.blobWritten = true ∧
    c8Out2.evidencePath ≠ c8Out1.evidencePath := by decide

/-- C8 (amended): the blob name is `<run_id>_<sha256(raw)>.log` under the
evidence directory, the blob holds exactly the captured bytes, the file is
written iff a file of that name is absent, and a re-capture of the same
bytes under the same run id (same timestamp) is a no-op; only captures at
different timestamps produce distinct blob names. -/
theorem capture_blob_content_addressed (raw : List Nat) (args : CaptureArgs)
    (existing : String) (blobs : List String) (key : Option String) (tsIso tsCompact : String) :
    (captureMain raw args existing blobs key tsIso tsCompact).evidencePath =
      args.evidenceDir ++ "/" ++ (captureMain raw args existing blobs key tsIso tsCompact).runId ++
        "_" ++ sha256Hex raw ++ ".log" ∧
    (captureMain raw args existing blobs key tsIso tsCompact).blobContent = raw ∧
    ((captureMain raw args existing blobs key tsIso tsCompact).blobWritten = true ↔
      (captureMain raw args existing blobs key tsIso tsCompact).evidencePath ∉ blobs) ∧
    (captureMain raw args
      ((captureMain raw args existing blobs key tsIso tsCompact).ledger)
      ((captureMain raw args existing blobs key tsIso tsCompact).evidencePath :: blobs)
      key tsIso tsCompact).blobWritten = false := by
  refine ⟨rfl, rfl, ?_, ?_⟩
  · exact ⟨fun h => of_decide_eq_true h, fun h => decide_eq_true h⟩
  · exact decide_eq_false fun hn => hn (List.mem_cons_self _ _)

set_option maxRecDepth 8192 in
/-- C2: two ledger captures with key "k" on raw inputs b"a" then b"b":
`_find_last_hmac` fails to parse the hmac line the first capture stored
(its regex demands a literal backslash after the hex), so the second
block's stored `prev_hmac` is the empty string and differs from the first
block's stored (non-empty) hmac — the claimed chain does not hold. -/
theorem ledger_prev_hmac_chain_bug :
    findLastHmac c2Out1.ledger = "" ∧
    (storedHmacs c2Out1.ledger).length = 1 ∧
    storedPrevHmacs c2Out2.ledger = ["", ""] ∧
    (storedHmacs c2Out2.ledger).getD 0 "" ≠ "" ∧
    (storedPrevHmacs c2Out2.ledger).getD 1 "" ≠ (storedHmacs c2Out2.ledger).getD 0 "" := by
  decide

/-- C10: for every state and argument set that validates, a dry run of the
transition engine returns 0 and performs no state write and no backup; the
lane switcher's dry run behaves the same way. -/
theorem dry_run_writes_nothing :
    (∀ (args : TransitionArgs) (key : Option String) (now : String)
       (files : String → Option (List Nat)) (st : TState) (res : TOut),
       args.dryRun = true →
       transitionMain args key now files st = .ok res →
       res.exitCode = 0 ∧ res.wroteBackup = false ∧ res.wroteState = false) ∧
    (∀ (largs : LaneArgs) (key : Option String) (st : TState) (res : LOut),
       largs.dryRun = true →
       setExecutionLaneMain largs key st = .ok res →
       res.exitCode = 0 ∧ res.wroteBackup = false ∧ res.wroteState = false) := by
  constructor
  · intro args key now files st res hdry hok
    simp only [transitionMain] at hok
    repeat' split at hok
    all_goals try cases hok
    all_goals first
      | exact ⟨rfl, rfl, rfl⟩
      | simp_all
  · intro largs key st res hdry hok
    simp only [setExecutionLaneMain] at hok
    repeat' split at hok
    all_goals try cases hok
    all_goals first
      | exact ⟨rfl, rfl, rfl⟩
      | simp_all

/-- C10 witness: dry runs of scenario A's transition and of a FAST_UI lane
switch both succeed with exit 0 and no writes. -/
theorem dry_run_writes_nothing_witness :
    ((⟨0, scenAResultState, false, false⟩ : TOut).exitCode = 0 ∧
     (⟨0, scenAResultState, false, false⟩ : TOut).wroteBackup = false ∧
     (⟨0, scenAResultState, false, false⟩ : TOut).wroteState = false) ∧
    ((⟨0, laneDryResultState, false, false⟩ : LOut).exitCode = 0 ∧
     (⟨0, laneDryResultState, false, false⟩ : LOut).wroteBackup = false ∧
     (⟨0, laneDryResultState, false, false⟩ : LOut).wroteState = false) :=
  ⟨dry_run_writes_nothing.1 scenADryArgs none scenATime scenAFiles scenAState
      ⟨0, scenAResultState, false, false⟩ rfl (by decide),
   dry_run_writes_nothing.2 laneDryArgs none scenAState
      ⟨0, laneDryResultState, false, false⟩ rfl (by decide)⟩

theorem ensureRequiredSequence_preserves (st : TState) (lane : String) (rs : List String)
    (st2 : TState) (h : ensureRequiredSequence st lane = .ok (rs, st2)) :
    st2.history = st.history ∧ st2.current_phase = st.current_phase ∧
    st2.next_phase = st.next_phase ∧ st2.execution_lane = st.execution_lane := by
  simp only [ensureRequiredSequence] at h
  repeat' split at h
  all_goals try exact Except.noConfusion h
  all_goals injection h with h
  all_goals injection h with h1 h2
  all_goals subst h2
  all_goals exact ⟨rfl, rfl, rfl, rfl⟩

theorem transition_success_writes (args : TransitionArgs) (key : Option String) (now : String)
    (files : String → Option (List Nat)) (st : TState)
    (cp np P T r lane : String) (rs : List String) (st2 : TState) (ev : Option EvidenceObj)
    (hcp : st.current_phase = some cp)
    (hnp : st.next_phase = some np)
    (hP : canonicalizePhase np = .ok P)
    (hT : canonicalizePhase args.toPhase = .ok T)
    (hr : normalizeRole args.role = .ok r)
    (hlane : normalizeLane st.execution_lane = .ok lane)
    (hlock : ¬ st.is_locked = some true)
    (hrole : phaseToRole P = some r)
    (hallowed : (P, T) ∈ allowedTransitionsByLane lane)
    (hseq : ensureRequiredSequence { st with execution_lane := some lane } lane = .ok (rs, st2))
    (hskip : skipCheck rs st2.history P T = .ok ())
    (hev : evidenceResolve args.evidence files = .ok ev)
    (hdry : args.dryRun = false) :
    ∃ res : TOut, transitionMain args key now files st = .ok res ∧
      res.exitCode = 0 ∧ res.wroteState = true ∧ res.wroteBackup = true ∧
      res.newState.current_phase = some P ∧
      res.newState.next_phase = some T ∧
      res.newState.history =
        some (st.history.getD [] ++
          [HistItem.entry ⟨P, some now, some r, some lane, args.note, ev⟩]) := by
  have hist2 : st2.history = st.history :=
    (ensureRequiredSequence_preserves _ _ _ _ hseq).1
  rw [hcp, hnp] at hseq
  simp only [transitionMain, hcp, hnp, hP, hT, hr, hlane, hrole, hdry]
  rw [if_neg hlock]
  simp only [ne_eq, not_true_eq_false, if_false, reduceIte, hallowed, not_false_eq_true,
    not_true_eq_false]
  simp only [hseq, hskip, hev]
  cases key with
  | none =>
    refine ⟨_, rfl, ?_⟩
    refine ⟨rfl, rfl, rfl, rfl, rfl, ?_⟩
    simp only [hist2]
  | some k =>
    refine ⟨_, rfl, ?_⟩
    refine ⟨rfl, rfl, rfl, rfl, rfl, ?_⟩
    simp only [hist2]

/-- C1: whenever the state's next phase canonicalizes to P, the acting
role is role_for_phase(P), (P, T) is allowed in the lane, the no-skip
check passes and evidence resolution succeeds, a non-dry-run transition
succeeds writing current_phase = P, next_phase = T and the previous
history verbatim plus exactly one entry with phase P and by_role the
acting role; and concretely, from scenario A's initial state,
transition(architect, QA_CONTRACT) with an empty evidence file writes
current=ARCHITECT, next=QA_CONTRACT and one history entry whose
evidence.sha256 is the SHA-256 of the empty byte string. -/
theorem transition_applies_and_appends :
    (∀ (args : TransitionArgs) (key : Option String) (now : String)
       (files : String → Option (List Nat)) (st : TState)
       (cp np P T r lane : String) (rs : List String) (st2 : TState) (ev : Option EvidenceObj),
       st.current_phase = some cp →
       st.next_phase = some np →
       canonicalizePhase np = .ok P →
       canonicalizePhase args.toPhase = .ok T →
       normalizeRole args.role = .ok r →
       normalizeLane st.execution_lane = .ok lane →
       ¬ st.is_locked = some true →
       phaseToRole P = some r →
       (P, T) ∈ allowedTransitionsByLane lane →
       ensureRequiredSequence { st with execution_lane := some lane } lane = .ok (rs, st2) →
       skipCheck rs st2.history P T = .ok () →
       evidenceResolve args.evidence files = .ok ev →
       args.dryRun = false →
       ∃ res : TOut, transitionMain args key now files st = .ok res ∧
         res.exitCode = 0 ∧ res.wroteState = true ∧ res.wroteBackup = true ∧
         res.newState.current_phase = some P ∧
         res.newState.next_phase = some T ∧
         res.newState.history =
           some (st.history.getD [] ++
             [HistItem.entry ⟨P, some now, some r, some lane, args.note, ev⟩])) ∧
    transitionMain scenAArgs none scenATime scenAFiles scenAState =
      .ok ⟨0, scenAResultState, true, true⟩ :=
  ⟨fun args key now files st cp np P T r lane rs st2 ev
      hcp hnp hP hT hr hlane hlock hrole hallowed hseq hskip hev hdry =>
    transition_success_writes args key now files st cp np P T r lane rs st2 ev
      hcp hnp hP hT hr hlane hlock hrole hallowed hseq hskip hev hdry,
   by decide⟩

/-- C1 witness: the general statement applied at scenario A's input. -/
theorem transition_applies_and_appends_witness :
    ∃ res : TOut, transitionMain scenAArgs none scenATime scenAFiles scenAState = .ok res ∧
      res.exitCode = 0 ∧ res.wroteState = true ∧ res.wroteBackup = true ∧
      res.newState.current_phase = some "ARCHITECT" ∧
      res.newState.next_phase = some "QA_CONTRACT" ∧
      res.newState.history =
        some (scenAState.history.getD [] ++
          [HistItem.entry ⟨"ARCHITECT", some scenATime, some "architect", some "FULL", "plan",
            some ⟨"ev.txt", "e3b0c44298fc1c149afbf4c8996fb92427ae41e4649b934ca495991b7852b855"⟩⟩]) :=
  transition_applies_and_appends.1 scenAArgs none scenATime scenAFiles scenAState
    "INIT" "ARCHITECT" "ARCHITECT" "QA_CONTRACT" "architect" "FULL"
    DEFAULT_REQUIRED_PHASE_SEQUENCE
    { scenAState with required_phase_sequence := some DEFAULT_REQUIRED_PHASE_SEQUENCE }
    (some ⟨"ev.txt", "e3b0c44298fc1c149afbf4c8996fb92427ae41e4649b934ca495991b7852b855"⟩)
    rfl rfl (by decide) (by decide) (by decide) (by decide) (by decide) (by decide)
    (by decide) (by decide) (by decide) (by decide) rfl

theorem evidenceResolve_error_shape (evidence : Option String)
    (files : String → Option (List Nat)) (e : String)
    (h : evidenceResolve evidence files = .error e) :
    ∃ p, e = "Evidence file not found: " ++ p := by
  unfold evidenceResolve at h
  split at h
  · exact Except.noConfusion h
  · split at h
    · injection h with h
      exact ⟨_, h.symm⟩
    · exact Except.noConfusion h

theorem evidence_error_not_skip (p : String) :
    pyStartsWith ("Evidence file not found: " ++ p) "Skip detected" = false := by
  unfold pyStartsWith
  rw [String.data_append]
  rfl

theorem skip_rejects_when_missing (args : TransitionArgs) (key : Option String) (now : String)
    (files : String → Option (List Nat)) (st : TState)
    (cp np P T r lane : String) (rs : List String) (st2 : TState) (tl : List String)
    (missing : List String)
    (hcp : st.current_phase = some cp)
    (hnp : st.next_phase = some np)
    (hP : canonicalizePhase np = .ok P)
    (hT : canonicalizePhase args.toPhase = .ok T)
    (hr : normalizeRole args.role = .ok r)
    (hlane : normalizeLane st.execution_lane = .ok lane)
    (hlock : ¬ st.is_locked = some true)
    (hrole : phaseToRole P = some r)
    (hallowed : (P, T) ∈ allowedTransitionsByLane lane)
    (hseq : ensureRequiredSequence { st with execution_lane := some lane } lane = .ok (rs, st2))
    (hmem : T ∈ rs)
    (htl : canonAll (historyPhases st2.history) = .ok tl)
    (hmissdef : missing = (rs.take (listIndex rs T)).filter fun p => p ∉ tl ++ [P]) :
    (missing ≠ [] →
      transitionMain args key now files st = .error (skipMsg T missing)) ∧
    (missing = [] → ¬ isSkipError (transitionMain args key now files st)) := by
  rw [hcp, hnp] at hseq
  constructor
  · intro hne
    have hsk : skipCheck rs st2.history P T = .error (skipMsg T missing) := by
      simp only [skipCheck, htl]
      rw [if_pos hmem, ← hmissdef, if_pos hne]
    simp only [transitionMain, hcp, hnp, hP, hT, hr, hlane, hrole]
    rw [if_neg hlock]
    simp only [ne_eq, not_true_eq_false, if_false, reduceIte, hallowed, not_false_eq_true,
      not_true_eq_false]
    simp only [hseq, hsk]
  · intro h0
    have hsk : skipCheck rs st2.history P T = .ok () := by
      simp only [skipCheck, htl]
      rw [if_pos hmem, ← hmissdef]
      simp [h0]
    simp only [transitionMain, hcp, hnp, hP, hT, hr, hlane, hrole]
    rw [if_neg hlock]
    simp only [ne_eq, not_true_eq_false, if_false, reduceIte, hallowed, not_false_eq_true,
      not_true_eq_false]
    simp only [hseq, hsk]
    rcases hevc : evidenceResolve args.evidence files with e | ev
    · rintro ⟨m, hm, hpre⟩
      injection hm with hm
      obtain ⟨p, hp⟩ := evidenceResolve_error_shape _ _ _ hevc
      rw [← hm, hp] at hpre
      rw [evidence_error_not_skip] at hpre
      exact Bool.noConfusion hpre
    · rintro ⟨m, hm, hpre⟩
      split at hm
      · simp_all
      · split at hm <;> exact Except.noConfusion hm

/-- C4: with the pre-skip validations passing and the target phase T in
the required sequence, the engine rejects with the skip error (naming the
missing phases) exactly when some required phase before T is absent from
history.phases together with the executing phase; concretely, the backward
fix-loop ANALYST_CI_GATE -> BACKEND succeeds when the earlier required
phases are present, and the tampered timeline lacking QA_CONTRACT is
rejected with "Skip detected: cannot transition to FRONTEND without
completing required phases: ['QA_CONTRACT']". -/
theorem skip_detection_exact :
    (∀ (args : TransitionArgs) (key : Option String) (now : String)
       (files : String → Option (List Nat)) (st : TState)
       (cp np P T r lane : String) (rs : List String) (st2 : TState) (tl : List String)
       (missing : List String),
       st.current_phase = some cp →
       st.next_phase = some np →
       canonicalizePhase np = .ok P →
       canonicalizePhase args.toPhase = .ok T →
       normalizeRole args.role = .ok r →
       normalizeLane st.execution_lane = .ok lane →
       ¬ st.is_locked = some true →
       phaseToRole P = some r →
       (P, T) ∈ allowedTransitionsByLane lane →
       ensureRequiredSequence { st with execution_lane := some lane } lane = .ok (rs, st2) →
       T ∈ rs →
       canonAll (historyPhases st2.history) = .ok tl →
       missing = (rs.take (listIndex rs T)).filter (fun p => p ∉ tl ++ [P]) →
       (missing ≠ [] →
         transitionMain args key now files st = .error (skipMsg T missing)) ∧
       (missing = [] → ¬ isSkipError (transitionMain args key now files st))) ∧
    transitionMain fixLoopArgs none scenATime scenAFiles fixLoopState =
      .ok ⟨0, fixLoopResultState, true, true⟩ ∧
    transitionMain skipArgs none scenATime scenAFiles skipState =
      .error "Skip detected: cannot transition to FRONTEND without completing required phases: ['QA_CONTRACT']" :=
  ⟨fun args key now files st cp np P T r lane rs st2 tl missing
      hcp hnp hP hT hr hlane hlock hrole hallowed hseq hmem htl hmissdef =>
    skip_rejects_when_missing args key now files st cp np P T r lane rs st2 tl missing
      hcp hnp hP hT hr hlane hlock hrole hallowed hseq hmem htl hmissdef,
   by decide, by decide⟩

/-- C4 witness: the general statement applied at the tampered-timeline
input, where the missing-phase list is exactly ['QA_CONTRACT']. -/
theorem skip_detection_exact_witness :
    ((["QA_CONTRACT"] : List String) ≠ [] →
      transitionMain skipArgs none scenATime scenAFiles skipState =
        .error (skipMsg "FRONTEND" ["QA_CONTRACT"])) ∧
    ((["QA_CONTRACT"] : List String) = [] →
      ¬ isSkipError (transitionMain skipArgs none scenATime scenAFiles skipState)) :=
  skip_detection_exact.1 skipArgs none scenATime scenAFiles skipState
    "BACKEND" "ANALYST_CI_GATE" "ANALYST_CI_GATE" "FRONTEND" "analyst" "FULL"
    DEFAULT_REQUIRED_PHASE_SEQUENCE
    { skipState with required_phase_sequence := some DEFAULT_REQUIRED_PHASE_SEQUENCE }
    ["ARCHITECT", "BACKEND"] ["QA_CONTRACT"]
    rfl rfl (by decide) (by decide) (by decide) (by decide) (by decide) (by decide)
    (by decide) (by decide) (by decide) (by decide) (by decide)

theorem historyErrs_nil (bh hh : Option (List HistItem)) (bn : Option String)
    (h : historyErrs bh hh bn = []) :
    ∃ bl hl, bh = some bl ∧ hh = some hl ∧
      hl.length = bl.length + 1 ∧ hl.take bl.length = bl := by
  unfold historyErrs at h
  split at h
  · rename_i bl hl
    split at h
    · cases h
    · rename_i hlen
      rcases List.append_eq_nil.mp h with ⟨h1, _⟩
      refine ⟨bl, hl, rfl, rfl, by omega, ?_⟩
      by_contra hne
      rw [if_pos hne] at h1
      cases h1
  · cases h

theorem historyErrs_no_append (bl hl : List HistItem) (bn : Option String)
    (hlen : hl.length = bl.length) :
    historyErrs (some bl) (some hl) bn =
      ["history must be append-only with exactly 1 new entry per transition PR."] := by
  simp only [historyErrs]
  rw [if_pos (by omega)]

theorem diff_guard_ok_append_only (b h : DState)
    (hok : (validateStateTransition true b h).ok = true) :
    ∃ bl hl, b.history = some bl ∧ h.history = some hl ∧
      hl.length = bl.length + 1 ∧ hl.take bl.length = bl := by
  have hE : diffErrors b h = [] := List.isEmpty_iff.mp hok
  simp only [diffErrors] at hE
  repeat obtain ⟨_, hE⟩ := List.append_eq_nil.mp hE
  exact historyErrs_nil _ _ _ hE

theorem diff_guard_no_append_error (b h : DState) (bl hl : List HistItem)
    (hb : b.history = some bl) (hh : h.history = some hl)
    (hlen : hl.length = bl.length) :
    "history must be append-only with exactly 1 new entry per transition PR." ∈
      (validateStateTransition true b h).errors ∧
    diffGuardExit true b h = 1 := by
  have hmem : "history must be append-only with exactly 1 new entry per transition PR." ∈
      diffErrors b h := by
    simp only [diffErrors, hb, hh, historyErrs_no_append bl hl _ hlen]
    simp [List.mem_append]
  constructor
  · exact hmem
  · have hne : (diffErrors b h).isEmpty = false := by
      rcases hcase : (diffErrors b h).isEmpty with _ | _
      · rfl
      · rw [List.isEmpty_iff.mp hcase] at hmem
        cases hmem
    simp only [diffGuardExit, validateStateTransition, hne]
    rfl

/-- C7: when the state file did not change the diff guard returns OK with
changed=false; when it changed, an OK result forces head.history to be
base.history plus exactly one appended entry (length + 1 and verbatim
prefix); and when the head history's length equals the base's, the guard
reports "history must be append-only with exactly 1 new entry per
transition PR" and exits 1. -/
theorem diff_guard_append_only :
    (∀ b h : DState, validateStateTransition false b h = ⟨true, false, []⟩) ∧
    (∀ b h : DState, (validateStateTransition true b h).ok = true →
       ∃ bl hl, b.history = some bl ∧ h.history = some hl ∧
         hl.length = bl.length + 1 ∧ hl.take bl.length = bl) ∧
    (∀ (b h : DState) (bl hl : List HistItem), b.history = some bl → h.history = some hl →
       hl.length = bl.length →
       "history must be append-only with exactly 1 new entry per transition PR." ∈
         (validateStateTransition true b h).errors ∧
       diffGuardExit true b h = 1) :=
  ⟨fun _ _ => rfl,
   fun b h hok => diff_guard_ok_append_only b h hok,
   fun b h bl hl hb hh hlen => diff_guard_no_append_error b h bl hl hb hh hlen⟩

/-- C7 witness: an accepted one-entry append between concrete snapshots,
and the append-only error with exit 1 when the head history did not grow. -/
theorem diff_guard_append_only_witness :
    (∃ bl hl, dgBase.history = some bl ∧ dgHeadOk.history = some hl ∧
       hl.length = bl.length + 1 ∧ hl.take bl.length = bl) ∧
    ("history must be append-only with exactly 1 new entry per transition PR." ∈
       (validateStateTransition true dgBase dgHeadNoAppend).errors ∧
     diffGuardExit true dgBase dgHeadNoAppend = 1) :=
  ⟨diff_guard_append_only.2.1 dgBase dgHeadOk (by decide),
   diff_guard_append_only.2.2 dgBase dgHeadNoAppend [] [] rfl rfl rfl⟩
